import Mathlib

/-!
Verification of the resilient-invocation, code-extraction, code-formatting and
pipeline-orchestration layer of the multi-model content generator
(src/interactive_content_generator.py), as a shallow embedding.

Modelling conventions:
* Python strings are `String` / `List Char`; `str.strip()` is `pyStrip`
  (the ASCII whitespace set of CPython, which covers every input considered).
* The two concrete regular expressions of `extract_code_block` are embedded as
  dedicated leftmost-scan matchers (`searchFence`, `searchCodeTag`) mirroring
  `re.search` with `re.DOTALL`: leftmost start position, greedy optional
  literal tag with backtracking, non-greedy body ending at the first closing
  delimiter.
* A model client is an oracle `Nat → Res` mapping its call index to the result
  of that call (returned text, or a raised exception classified by `Err`).
  `anthropic.RateLimitError` and every other `anthropic.APIError` subclass
  (authentication, bad request, generic API error) are the exception types the
  handler in `generate_with_retry` catches; `Err.other` stands for any
  exception outside that hierarchy.
* The `tenacity` decorator `@retry(stop=stop_after_attempt(3),
  wait=wait_exponential(multiplier=1, min=4, max=10),
  retry_error_callback=lambda rs: rs.outcome.result())` is embedded by
  `retryRun`: tenacity retries the whole wrapped body on any exception, up to
  the attempt budget; `wait_exponential` computes
  `max(max(0, min), min(multiplier * 2 ** (attempt_number - 1), max))`; the
  error callback re-raises the last attempt outcome, which `retryRun` models
  by returning the last attempt result.
* Raising an exception is `Res.err` / `Except.error`; the pipeline
  `generate_technical_content` has no handler, so a fatal model failure
  propagates as `Except.error`.
-/

/-- Classified exception raised by a model invocation.  The first four
constructors stand for the anthropic exception hierarchy caught by the
handler in `generate_with_retry` (rate limit, authentication, bad request,
other API errors are all `anthropic.APIError` subclasses); `other` is any
exception outside that hierarchy. -/
inductive Err where
  | rateLimit (msg : String)
  | authError (msg : String)
  | badRequest (msg : String)
  | apiError (msg : String)
  | other (msg : String)
deriving DecidableEq

/-- Result of one call to a model client: returned text or a raised error. -/
inductive Res where
  | ok (text : String)
  | err (e : Err)
deriving DecidableEq

/-- Whether the `except (anthropic.RateLimitError, anthropic.APIError)` clause
of `generate_with_retry` catches the exception. -/
def isCaught : Err → Bool
  | .other _ => false
  | _ => true

/-- The wait computed by tenacity `wait_exponential(multiplier, min=mn,
max=mx)` after the attempt numbered `attemptNumber` (1-based):
`max(max(0, mn), min(multiplier * 2 ** (attemptNumber - 1), mx))`. -/
def waitExponential (multiplier mn mx attemptNumber : Nat) : Nat :=
  max (max 0 mn) (min (multiplier * 2 ^ (attemptNumber - 1)) mx)

/-- Observable outcome of a decorated `generate_with_retry` call: final
result (returned text or re-raised last exception), how many times the
primary model and the backup model were invoked, and the backoff delays
slept between attempts. -/
structure RunOut where
  result : Res
  primaryCalls : Nat
  backupCalls : Nat
  waits : List Nat
deriving DecidableEq

/-- One attempt of the body of `generate_with_retry`: call the primary model;
on a caught anthropic error call `self.backup_model` once inside the handler;
a failing backup re-raises the backup error.  Returns the attempt result and
the updated call counters. -/
def attemptOnce (primary backup : Nat → Res) (p b : Nat) : Res × Nat × Nat :=
  match primary p with
  | .ok t => (.ok t, p + 1, b)
  | .err e =>
    if isCaught e then
      match backup b with
      | .ok t => (.ok t, p + 1, b + 1)
      | .err e2 => (.err e2, p + 1, b + 1)
    else (.err e, p + 1, b)

/-- The tenacity retry loop around the body of `generate_with_retry`:
`remaining` further attempts are allowed after the current one,
`attemptNumber` is the 1-based number of the current attempt, `p` and `b` are
the call counters of the primary and backup model.  Any exception of an
attempt is retried while budget remains, with the configured
`wait_exponential(multiplier=1, min=4, max=10)` delay between attempts; the
last attempt result stands (the configured `retry_error_callback` re-raises
it). -/
def retryRun (primary backup : Nat → Res) :
    Nat → Nat → Nat → Nat → RunOut
  | 0, _, p, b =>
    match attemptOnce primary backup p b with
    | (r, p2, b2) => ⟨r, p2, b2, []⟩
  | m + 1, attemptNumber, p, b =>
    match attemptOnce primary backup p b with
    | (.ok t, p2, b2) => ⟨.ok t, p2, b2, []⟩
    | (.err _, p2, b2) =>
      let out := retryRun primary backup m (attemptNumber + 1) p2 b2
      ⟨out.result, out.primaryCalls, out.backupCalls,
        waitExponential 1 4 10 attemptNumber :: out.waits⟩

/-- The decorated `generate_with_retry` with an attempt budget
(`stop_after_attempt`), starting both call counters at 0.  The source
configures `attempts = 3`. -/
def generate_with_retry (attempts : Nat) (primary backup : Nat → Res) :
    RunOut :=
  retryRun primary backup (attempts - 1) 1 0 0

/-- CPython whitespace characters stripped by `str.strip()` (ASCII part). -/
def isSpace (c : Char) : Bool :=
  c == ' ' || c == '\t' || c == '\n' || c == '\r' || c == '\x0b' || c == '\x0c'

/-- Python `str.strip()` on a character list: drop whitespace from both
ends. -/
def pyStrip (l : List Char) : List Char :=
  (((l.dropWhile isSpace).reverse).dropWhile isSpace).reverse

/-- Python `str.strip()` on a `String`. -/
def stripString (s : String) : String :=
  (pyStrip s.toList).asString

/-- Python `str.lower()` on one ASCII character. -/
def toLowerC (c : Char) : Char :=
  if 65 ≤ c.toNat && c.toNat ≤ 90 then Char.ofNat (c.toNat + 32) else c

/-- Python `str.lower()` (ASCII part, which covers the languages
considered). -/
def pyLower (s : String) : String :=
  (s.toList.map toLowerC).asString

/-- Boolean prefix test on character lists (Python `str.startswith` and the
literal-matching steps of the regex matchers). -/
def isPrefixC : List Char → List Char → Bool
  | [], _ => true
  | _ :: _, [] => false
  | p :: ps, c :: cs => p == c && isPrefixC ps cs

/-- Leftmost split of `s` at the first occurrence of the pattern `pat`:
`some (pre, post)` with `s = pre ++ pat ++ post` and `pre` shortest.  This is
the non-greedy `(.*?)` search for the closing delimiter under `re.DOTALL`. -/
def splitFirst (pat : List Char) : List Char → Option (List Char × List Char)
  | [] => if isPrefixC pat [] then some ([], []) else none
  | c :: cs =>
    if isPrefixC pat (c :: cs) then some ([], (c :: cs).drop pat.length)
    else
      match splitFirst pat cs with
      | some pr => some (c :: pr.1, pr.2)
      | none => none

/-- The three-backtick fence delimiter. -/
def fence : List Char := ("```").toList

/-- The opening fence with its optional literal language tag and newline. -/
def pyTagNl : List Char := ("python\n").toList

/-- Try the pattern of strategy 1 at the current position: three backticks,
then the greedy optional literal tag `python` (tried first, as the regex
engine does), then a newline, then the non-greedy body up to the first
closing fence.  Returns the captured group. -/
def matchFenceAt (s : List Char) : Option (List Char) :=
  if isPrefixC fence s then
    let rest := s.drop 3
    if isPrefixC pyTagNl rest then
      match splitFirst fence (rest.drop 7) with
      | some pr => some pr.1
      | none => none
    else if isPrefixC (("\n").toList) rest then
      match splitFirst fence (rest.drop 1) with
      | some pr => some pr.1
      | none => none
    else none
  else none

/-- Strategy 1 search, the embedding of
`re.search(r3backticks(?:python)?\n(.*?)r3backticks, out, re.DOTALL)`:
scan start positions left to right and return the first captured group. -/
def searchFence : List Char → Option (List Char)
  | [] => none
  | c :: cs =>
    match matchFenceAt (c :: cs) with
    | some g => some g
    | none => searchFence cs

/-- The literal opening marker of strategy 2. -/
def codeOpen : List Char := ("<code>").toList

/-- The literal closing marker of strategy 2. -/
def codeClose : List Char := ("</code>").toList

/-- Try the pattern of strategy 2 at the current position. -/
def matchCodeTagAt (s : List Char) : Option (List Char) :=
  if isPrefixC codeOpen s then
    match splitFirst codeClose (s.drop 6) with
    | some pr => some pr.1
    | none => none
  else none

/-- Strategy 2 search, the embedding of
`re.search(r<code>(.*?)</code>, out, re.DOTALL)`. -/
def searchCodeTag : List Char → Option (List Char)
  | [] => none
  | c :: cs =>
    match matchCodeTagAt (c :: cs) with
    | some g => some g
    | none => searchCodeTag cs

/-- The fixed fallback stub returned when no extraction strategy matches. -/
def placeholder : String :=
  "# No code could be extracted\ndef example_function():\n    pass"

/-- The embedding of `extract_code_block`: strategy 1 (fenced block), then
strategy 2 (`<code>` markers), then strategy 3 (trimmed output starting with
`def ` or `import `), else the fixed placeholder stub. -/
def extract_code_block (model_output : String) : String :=
  match searchFence model_output.toList with
  | some g => (pyStrip g).asString
  | none =>
    match searchCodeTag model_output.toList with
    | some g => (pyStrip g).asString
    | none =>
      if isPrefixC (("def ").toList) (pyStrip model_output.toList)
          || isPrefixC (("import ").toList) (pyStrip model_output.toList)
      then (pyStrip model_output.toList).asString
      else placeholder

/-- The embedding of the nested `format_code`: the black and isort passes are
oracles that either return normalized text or raise.  Returns the resulting
code together with the log lines emitted by the `except` handler; the
handler makes the function total (formatting never raises to its caller). -/
def format_code (blackFmt isortFmt : String → Except String String)
    (code : String) (language : String) : String × List String :=
  if pyLower language = ("python") then
    match blackFmt code with
    | .ok f1 =>
      match isortFmt f1 with
      | .ok f2 => (f2, [])
      | .error e => (code, [("Code formatting error: ") ++ e])
    | .error e => (code, [("Code formatting error: ") ++ e])
  else (code, [])

/-- The model clients and formatting passes injected into the pipeline: the
three per-stage primary models, the shared backup model (`self.backup_model`,
whose call counter threads through all stages), and the black/isort
oracles. -/
structure Models where
  research : Nat → Res
  creative : Nat → Res
  code : Nat → Res
  backup : Nat → Res
  blackFmt : String → Except String String
  isortFmt : String → Except String String

/-- The aggregate dictionary returned by `generate_technical_content`. -/
structure Report where
  blog_structure : String
  blog_content : String
  code_original : String
  code_formatted : String
  code_language : String
  code_explanation : String
deriving DecidableEq

/-- The embedding of `generate_technical_content`: run the four stages in
sequence, each model stage through the retry wrapper (3 attempts, shared
backup model), emitting the `log_and_progress` events that carry a percent.
A stage whose retry wrapper re-raises makes the whole call raise
(`Except.error`); the progress events delivered before the failure are
reported alongside. -/
def generate_technical_content (m : Models) (topic : String) :
    Except Err Report × List (Nat × String) :=
  let p1 : List (Nat × String) :=
    [(0, ("Starting research phase for topic: ") ++ topic)]
  let out1 := retryRun m.research m.backup 2 1 0 0
  match out1.result with
  | .err e => (.error e, p1)
  | .ok blogStructure =>
    let p2 := p1 ++ [(25, ("Research phase completed")),
      (25, ("Starting creative content development"))]
    let out2 := retryRun m.creative m.backup 2 1 0 out1.backupCalls
    match out2.result with
    | .err e => (.error e, p2)
    | .ok blogContent =>
      let p3 := p2 ++ [(50, ("Creative content development completed")),
        (50, ("Starting code example generation"))]
      let out3 := retryRun m.code m.backup 2 1 0 out2.backupCalls
      match out3.result with
      | .err e => (.error e, p3)
      | .ok codeText =>
        let p4 := p3 ++ [(75, ("Code example generation completed")),
          (75, ("Extracting and formatting code"))]
        let extracted := extract_code_block codeText
        let formatted := format_code m.blackFmt m.isortFmt extracted ("python")
        let p5 := p4 ++ [(100, ("Content generation completed"))]
        (.ok ⟨blogStructure, blogContent, extracted, formatted.1,
          ("python"), ("Code example generated for the given topic")⟩, p5)

/-- Concrete models for a fully successful run: every stage returns on the
first call and the code stage returns a fenced block. -/
def mAllOk : Models :=
  ⟨fun _ => .ok ("R"), fun _ => .ok ("D using R"),
   fun _ => .ok ("```python\nprint(1)\n```"), fun _ => .ok ("B"),
   fun s => .ok s, fun s => .ok s⟩

/-- Concrete models whose draft stage always raises an uncaught exception:
research succeeds, the creative model fails fatally. -/
def mDraftFail : Models :=
  ⟨fun _ => .ok ("R"), fun _ => .err (.other ("draft model down")),
   fun _ => .ok ("unused"), fun _ => .ok ("B"),
   fun s => .ok s, fun s => .ok s⟩

/-- Dropping while a predicate holds is idempotent. -/
theorem dropWhile_idem {α : Type} (p : α → Bool) (l : List α) :
    (l.dropWhile p).dropWhile p = l.dropWhile p := by
  induction l with
  | nil => rfl
  | cons a t ih =>
    by_cases h : p a
    · simp [List.dropWhile_cons, h, ih]
    · simp [List.dropWhile_cons, h]

/-- The head of what `dropWhile` leaves fails the predicate. -/
theorem dropWhile_head_false {α : Type} (p : α → Bool) :
    ∀ {l : List α} {a : α} {t : List α},
      List.dropWhile p l = a :: t → p a = false := by
  intro l
  induction l with
  | nil => intro a t h; simp [List.dropWhile] at h
  | cons b l ih =>
    intro a t h
    by_cases hb : p b
    · rw [List.dropWhile_cons_of_pos hb] at h
      exact ih h
    · rw [List.dropWhile_cons_of_neg hb] at h
      injection h with h1 h2
      subst h1
      simpa using hb

/-- Round trip between character lists and strings. -/
theorem toList_asString (l : List Char) : (l.asString).toList = l := rfl

/-- Trimming trailing characters of `x` keeps the result headed by the head
of `x`, so if the head of `x` fails the predicate the right-trimmed list is
left-trim free. -/
theorem trimRight_dropWhile_eq_self (p : Char → Bool) (x : List Char)
    (hx : ∀ a t, x = a :: t → p a = false) :
    ((x.reverse.dropWhile p).reverse).dropWhile p
      = (x.reverse.dropWhile p).reverse := by
  cases hcu : (x.reverse.dropWhile p).reverse with
  | nil => rfl
  | cons c u2 =>
    have h3 : x.reverse.takeWhile p ++ x.reverse.dropWhile p = x.reverse :=
      List.takeWhile_append_dropWhile p x.reverse
    have hsplit : x
        = (x.reverse.dropWhile p).reverse ++ (x.reverse.takeWhile p).reverse := by
      calc x = x.reverse.reverse := (List.reverse_reverse x).symm
        _ = (x.reverse.takeWhile p ++ x.reverse.dropWhile p).reverse := by
              rw [h3]
        _ = _ := by rw [List.reverse_append]
    have hxc : x = c :: (u2 ++ (x.reverse.takeWhile p).reverse) := by
      conv_lhs => rw [hsplit, hcu]
      rfl
    have hc : p c = false := hx c _ hxc
    exact List.dropWhile_cons_of_neg (by simp [hc])

/-- Python `strip` is idempotent. -/
theorem pyStrip_idem (l : List Char) : pyStrip (pyStrip l) = pyStrip l := by
  have h1 : (pyStrip l).dropWhile isSpace = pyStrip l := by
    refine trimRight_dropWhile_eq_self isSpace (l.dropWhile isSpace) ?_
    intro a t h
    exact dropWhile_head_false isSpace h
  have h2 : (pyStrip l).reverse.dropWhile isSpace = (pyStrip l).reverse := by
    unfold pyStrip
    rw [List.reverse_reverse]
    exact dropWhile_idem _ _
  calc pyStrip (pyStrip l)
      = ((((pyStrip l).dropWhile isSpace).reverse).dropWhile isSpace).reverse :=
        rfl
    _ = (((pyStrip l).reverse).dropWhile isSpace).reverse := by rw [h1]
    _ = ((pyStrip l).reverse).reverse := by rw [h2]
    _ = pyStrip l := List.reverse_reverse _

/-- When the primary model raises a caught anthropic error on every call and
the backup model raises on every call, each tenacity attempt calls both
models once and re-raises the backup error, so the loop runs through its
whole budget. -/
theorem retryRun_caught_allfail (prim bak : Nat → Res) (e f : Nat → Err)
    (hp : ∀ i, prim i = .err (e i)) (hc : ∀ i, isCaught (e i) = true)
    (hb : ∀ j, bak j = .err (f j)) :
    ∀ remaining a p b,
      (retryRun prim bak remaining a p b).result = .err (f (b + remaining)) ∧
      (retryRun prim bak remaining a p b).primaryCalls = p + remaining + 1 ∧
      (retryRun prim bak remaining a p b).backupCalls = b + remaining + 1 := by
  intro remaining
  induction remaining with
  | zero =>
    intro a p b
    simp [retryRun, attemptOnce, hp, hc, hb]
  | succ m ih =>
    intro a p b
    have harg : b + (m + 1) = (b + 1) + m := by omega
    have h := ih (a + 1) (p + 1) (b + 1)
    simp only [retryRun, attemptOnce, hp, hc, hb, if_pos]
    refine ⟨?_, ?_, ?_⟩
    · rw [harg]
      exact h.1
    · rw [h.2.1]
      omega
    · rw [h.2.2]
      omega

/-- When the primary model raises an uncaught exception on every call, no
fallback is attempted: every tenacity attempt calls only the primary model
and re-raises, so the loop runs through its whole budget with the backup
untouched. -/
theorem retryRun_uncaught_allfail (prim bak : Nat → Res) (e : Nat → Err)
    (hp : ∀ i, prim i = .err (e i)) (hc : ∀ i, isCaught (e i) = false) :
    ∀ remaining a p b,
      (retryRun prim bak remaining a p b).result = .err (e (p + remaining)) ∧
      (retryRun prim bak remaining a p b).primaryCalls = p + remaining + 1 ∧
      (retryRun prim bak remaining a p b).backupCalls = b := by
  intro remaining
  induction remaining with
  | zero =>
    intro a p b
    simp [retryRun, attemptOnce, hp, hc]
  | succ m ih =>
    intro a p b
    have hA : attemptOnce prim bak p b = (Res.err (e p), p + 1, b) := by
      simp [attemptOnce, hp, hc]
    have h := ih (a + 1) (p + 1) b
    have harg : p + (m + 1) = p + 1 + m := by omega
    simp only [retryRun]
    rw [hA, harg]
    exact ⟨h.1, h.2.1, h.2.2⟩

/-- Claim C4: the delay inserted between retry attempts equals
`min(backoff_max, max(backoff_min, backoff_base * 2 ** i))` for attempt
index `i` starting at 0 (the wait after the 1-based attempt `i + 1`); with
the configured constants multiplier 1, min 4, max 10 this determines the
delays for `i = 0, 1, 2`, and a run exhausting the three configured attempts
sleeps exactly those clamped delays. -/
theorem claim_C4 :
    (∀ i : Nat,
      waitExponential 1 4 10 (i + 1) = min 10 (max 4 (1 * 2 ^ i))) ∧
    waitExponential 1 4 10 1 = 4 ∧
    waitExponential 1 4 10 2 = 4 ∧
    waitExponential 1 4 10 3 = 4 ∧
    (generate_with_retry 3 (fun _ => Res.err (Err.other ("transient")))
        (fun _ => Res.ok ("unused"))).waits = [4, 4] := by
  refine ⟨?_, by decide, by decide, by decide, by decide⟩
  intro i
  unfold waitExponential
  simp only [Nat.add_sub_cancel, one_mul]
  generalize 2 ^ i = n
  omega

/-- Claim C5 (amended): extraction is total and, whenever no strategy
matches (no fenced block, no marker pair, trimmed text not starting with a
code-leading token), it returns the fixed placeholder stub, which is
non-empty; the original universal non-emptiness fails because a matched
empty span is returned as the empty string. -/
theorem claim_C5_amended (s : String)
    (hf : searchFence s.toList = none)
    (ht : searchCodeTag s.toList = none)
    (hd : isPrefixC (("def ").toList) (pyStrip s.toList) = false)
    (hi : isPrefixC (("import ").toList) (pyStrip s.toList) = false) :
    extract_code_block s = placeholder ∧ placeholder ≠ ("") := by
  constructor
  · unfold extract_code_block
    rw [hf, ht, hd, hi]
    rfl
  · decide

/-- Claim C5 witness: the amended theorem applied to an input matching no
strategy. -/
theorem claim_C5_witness :
    extract_code_block ("no code here") = placeholder ∧ placeholder ≠ ("") :=
  claim_C5_amended ("no code here") (by decide) (by decide) (by decide)
    (by decide)

/-- Claim C5 counterexample: an input whose fenced block is empty makes
extraction return the empty string, refuting the guarantee that extraction
never returns an empty string. -/
theorem claim_C5_counterexample :
    extract_code_block ("```\n```") = ("") := by decide

/-- Claim C6 (amended): the heuristics run in fixed priority order stopping
at the first match, and the first heuristic matches a triple-backtick fenced
block optionally tagged with the literal language name `python`, non-greedy
and with newlines inside the span, returning the span trimmed: the
specified example returns exactly its fenced body; an untagged fence also
matches; the fenced strategy takes priority over a textually earlier
`<code>` block; with two fenced blocks the first, shortest span wins. -/
theorem claim_C6_amended :
    extract_code_block ("Here:\n```python\ndef f():\n    return 1\n```\nend")
        = ("def f():\n    return 1") ∧
    extract_code_block ("```\nplain\n```") = ("plain") ∧
    extract_code_block ("<code>A</code>\n```python\nB\n```") = ("B") ∧
    extract_code_block
        ("```python\nfirst()\n```\nmiddle\n```python\nsecond()\n```")
        = ("first()") := by
  refine ⟨by decide, by decide, by decide, by decide⟩

/-- Claim C6 counterexample: a fenced block tagged with a language name
other than the literal `python` is not matched by the first heuristic (nor
any other), so the claim that any language name may tag the fence fails:
the extractor returns the placeholder stub instead of the span. -/
theorem claim_C6_counterexample :
    extract_code_block ("```ruby\nx = 1\n```") = placeholder ∧
    extract_code_block ("```ruby\nx = 1\n```") ≠ ("x = 1") := by
  refine ⟨by decide, by decide⟩

/-- Claim C7: the formatter is total (the handler returns instead of
re-raising); if the black pass or the isort pass raises, the original code
is returned unchanged and the failure reason is logged; for any language
other than python (case-insensitively) the code is returned unchanged with
no normalization attempted, whatever the normalization oracles do. -/
theorem claim_C7 :
    (∀ (blackFmt isortFmt : String → Except String String)
        (code language msg : String),
      pyLower language = ("python") → blackFmt code = .error msg →
        format_code blackFmt isortFmt code language
          = (code, [("Code formatting error: ") ++ msg])) ∧
    (∀ (blackFmt isortFmt : String → Except String String)
        (code language f1 msg : String),
      pyLower language = ("python") → blackFmt code = .ok f1 →
        isortFmt f1 = .error msg →
        format_code blackFmt isortFmt code language
          = (code, [("Code formatting error: ") ++ msg])) ∧
    (∀ (blackFmt isortFmt : String → Except String String)
        (code language : String),
      pyLower language ≠ ("python") →
        format_code blackFmt isortFmt code language = (code, [])) := by
  refine ⟨?_, ?_, ?_⟩ <;> intros <;> simp_all [format_code]

/-- Claim C7 witness: the three branches of the formatter contract at
concrete inputs: a failing black pass, a failing isort pass (under a
case-insensitive language match), and an unsupported language. -/
theorem claim_C7_witness :
    format_code (fun _ => .error ("invalid syntax")) (fun s => .ok s)
        ("def broken(") ("python")
      = (("def broken("), [("Code formatting error: ") ++ ("invalid syntax")]) ∧
    format_code (fun s => .ok s) (fun _ => .error ("isort failure"))
        ("x = 1") ("Python")
      = (("x = 1"), [("Code formatting error: ") ++ ("isort failure")]) ∧
    format_code (fun s => .ok s) (fun s => .ok s) ("var x;") ("javascript")
      = (("var x;"), []) :=
  ⟨claim_C7.1 _ _ _ _ _ (by decide) rfl,
   claim_C7.2.1 _ _ _ _ _ _ (by decide) rfl rfl,
   claim_C7.2.2 _ _ _ _ (by decide)⟩

/-- Claim C10: in every branch of the extractor (fenced match, marker
match, code-leading-token match, placeholder) the returned string equals
its own whitespace trim. -/
theorem claim_C10 (s : String) :
    stripString (extract_code_block s) = extract_code_block s := by
  unfold extract_code_block
  cases hf : searchFence s.toList with
  | some g => exact congrArg List.asString (pyStrip_idem g)
  | none =>
    cases ht : searchCodeTag s.toList with
    | some g => exact congrArg List.asString (pyStrip_idem g)
    | none =>
      cases hd : isPrefixC (("def ").toList) (pyStrip s.toList)
          || isPrefixC (("import ").toList) (pyStrip s.toList) with
      | true => exact congrArg List.asString (pyStrip_idem s.toList)
      | false => exact rfl

/-- Claim C1 (amended): for every attempt budget N >= 1, a primary client
raising a caught retryable error on every call is called exactly N times,
but the fallback attempt happens inside the handler of every retry attempt,
so a fallback client failing on every call is also called exactly N times
(the fallback IS retried); the final outcome re-raises only the last
fallback error, not a combined cause. -/
theorem claim_C1_amended (N : Nat) (hN : 1 ≤ N)
    (prim bak : Nat → Res) (e f : Nat → Err)
    (hp : ∀ i, prim i = .err (e i)) (hc : ∀ i, isCaught (e i) = true)
    (hb : ∀ j, bak j = .err (f j)) :
    (generate_with_retry N prim bak).primaryCalls = N ∧
    (generate_with_retry N prim bak).backupCalls = N ∧
    (generate_with_retry N prim bak).result = .err (f (N - 1)) := by
  have h := retryRun_caught_allfail prim bak e f hp hc hb (N - 1) 1 0 0
  unfold generate_with_retry
  refine ⟨?_, ?_, ?_⟩
  · rw [h.2.1]
    omega
  · rw [h.2.2]
    omega
  · rw [h.1, Nat.zero_add]

/-- Claim C1 witness: the amended theorem at the configured budget 3 with an
always-rate-limited primary and an always-failing backup. -/
theorem claim_C1_witness :
    (generate_with_retry 3 (fun _ => Res.err (Err.rateLimit ("rate limited")))
        (fun _ => Res.err (Err.other ("backup down")))).primaryCalls = 3 ∧
    (generate_with_retry 3 (fun _ => Res.err (Err.rateLimit ("rate limited")))
        (fun _ => Res.err (Err.other ("backup down")))).backupCalls = 3 ∧
    (generate_with_retry 3 (fun _ => Res.err (Err.rateLimit ("rate limited")))
        (fun _ => Res.err (Err.other ("backup down")))).result
      = Res.err (Err.other ("backup down")) :=
  claim_C1_amended 3 (by decide) _ _
    (fun _ => Err.rateLimit ("rate limited"))
    (fun _ => Err.other ("backup down"))
    (fun _ => rfl) (fun _ => rfl) (fun _ => rfl)

/-- Claim C1 counterexample: at the configured budget 3, with a primary that
always raises a retryable error and a backup that always fails, the
fallback client is called 3 times, not exactly once: the fallback attempt
is retried together with the body. -/
theorem claim_C1_counterexample :
    (generate_with_retry 3 (fun _ => Res.err (Err.rateLimit ("rate limit")))
        (fun _ => Res.err (Err.other ("backup boom")))).backupCalls = 3 ∧
    ¬ (generate_with_retry 3 (fun _ => Res.err (Err.rateLimit ("rate limit")))
        (fun _ => Res.err (Err.other ("backup boom")))).backupCalls = 1 := by
  decide

/-- Claim C2 (amended): the code has no immediate-fatal path.  An error
outside the caught anthropic types is retried against the primary client up
to the whole attempt budget with no fallback attempt, then re-raised; an
error of a caught anthropic type (which includes authentication and
malformed-request errors, both `APIError` subclasses) triggers a fallback
attempt inside the very first retry attempt, and a successful fallback even
turns the call into a success after one primary and one backup call. -/
theorem claim_C2_amended :
    (∀ (N : Nat) (prim bak : Nat → Res) (e : Nat → Err), 1 ≤ N →
      (∀ i, prim i = .err (e i)) → (∀ i, isCaught (e i) = false) →
      (generate_with_retry N prim bak).primaryCalls = N ∧
      (generate_with_retry N prim bak).backupCalls = 0 ∧
      (generate_with_retry N prim bak).result = .err (e (N - 1))) ∧
    (∀ (N : Nat) (prim bak : Nat → Res) (eA : Err) (t : String), 1 ≤ N →
      prim 0 = .err eA → isCaught eA = true → bak 0 = .ok t →
      generate_with_retry N prim bak = ⟨.ok t, 1, 1, []⟩) := by
  constructor
  · intro N prim bak e hN hp hc
    have h := retryRun_uncaught_allfail prim bak e hp hc (N - 1) 1 0 0
    unfold generate_with_retry
    refine ⟨?_, h.2.2, ?_⟩
    · rw [h.2.1]
      omega
    · rw [h.1, Nat.zero_add]
  · intro N prim bak eA t hN hp0 hcA hb0
    unfold generate_with_retry
    have hA : attemptOnce prim bak 0 0 = (Res.ok t, 1, 1) := by
      simp [attemptOnce, hp0, hcA, hb0]
    cases hM : N - 1 with
    | zero => simp [retryRun, hA]
    | succ m => simp [retryRun, hA]

/-- Claim C2 witness: the amended theorem at the configured budget 3, for an
uncaught error (three primary calls, no fallback) and for a caught
authentication error with a succeeding backup (one primary call, one
fallback call, overall success). -/
theorem claim_C2_witness :
    ((generate_with_retry 3 (fun _ => Res.err (Err.other ("type error")))
        (fun _ => Res.ok ("unused backup"))).primaryCalls = 3 ∧
      (generate_with_retry 3 (fun _ => Res.err (Err.other ("type error")))
        (fun _ => Res.ok ("unused backup"))).backupCalls = 0 ∧
      (generate_with_retry 3 (fun _ => Res.err (Err.other ("type error")))
        (fun _ => Res.ok ("unused backup"))).result
        = Res.err (Err.other ("type error"))) ∧
    generate_with_retry 3 (fun _ => Res.err (Err.authError ("bad api key")))
        (fun _ => Res.ok ("backup text"))
      = ⟨Res.ok ("backup text"), 1, 1, []⟩ :=
  ⟨claim_C2_amended.1 3 _ _ (fun _ => Err.other ("type error")) (by decide)
      (fun _ => rfl) (fun _ => rfl),
   claim_C2_amended.2 3 _ _ (Err.authError ("bad api key")) ("backup text")
      (by decide) rfl rfl rfl⟩

/-- Claim C2 counterexample: an authentication error (a caught anthropic
`APIError` subclass) on the first attempt leads to a fallback call and an
overall success, not an immediate fatal failure without fallback; and an
error outside the caught types (such as a malformed request raising a
non-anthropic exception) leads to 3 primary calls, not exactly one. -/
theorem claim_C2_counterexample :
    (generate_with_retry 3 (fun _ => Res.err (Err.authError ("invalid key")))
        (fun _ => Res.ok ("backup text"))).backupCalls = 1 ∧
    (generate_with_retry 3 (fun _ => Res.err (Err.authError ("invalid key")))
        (fun _ => Res.ok ("backup text"))).result = Res.ok ("backup text") ∧
    (generate_with_retry 3
        (fun _ => Res.err (Err.other ("malformed request")))
        (fun _ => Res.ok ("backup text"))).primaryCalls = 3 ∧
    ¬ (generate_with_retry 3
        (fun _ => Res.err (Err.other ("malformed request")))
        (fun _ => Res.ok ("backup text"))).primaryCalls = 1 := by
  decide

/-- Claim C3 (amended): if the research stage succeeds and the draft stage
fails fatally, the pipeline does not return a partial report: the failure
propagates out of `generate_technical_content` as a raised error, the
progress events delivered before the failure are exactly [0, 25, 25], and
the code-generation stage is never invoked (the outcome is independent of
the code-stage client). -/
theorem claim_C3_amended (m : Models) (topic : String) (rText : String)
    (e : Err)
    (h1 : (retryRun m.research m.backup 2 1 0 0).result = .ok rText)
    (h2 : (retryRun m.creative m.backup 2 1 0
        (retryRun m.research m.backup 2 1 0 0).backupCalls).result
        = .err e) :
    (generate_technical_content m topic).1 = .error e ∧
    ((generate_technical_content m topic).2).map Prod.fst = [0, 25, 25] ∧
    (∀ c, generate_technical_content { m with code := c } topic
        = generate_technical_content m topic) := by
  refine ⟨?_, ?_, ?_⟩
  · simp [generate_technical_content, h1, h2]
  · simp [generate_technical_content, h1, h2]
  · intro c
    simp [generate_technical_content, h1, h2]

/-- Claim C3 witness: the amended theorem at concrete models whose research
stage returns and whose draft stage always raises an uncaught error. -/
theorem claim_C3_witness :
    (generate_technical_content mDraftFail ("demo topic")).1
        = Except.error (Err.other ("draft model down")) ∧
    ((generate_technical_content mDraftFail ("demo topic")).2).map Prod.fst
        = [0, 25, 25] ∧
    generate_technical_content
        { mDraftFail with code := fun _ => Res.ok ("other code model") }
        ("demo topic")
      = generate_technical_content mDraftFail ("demo topic") := by
  have h := claim_C3_amended mDraftFail ("demo topic") ("R")
      (Err.other ("draft model down")) rfl rfl
  exact ⟨h.1, h.2.1, h.2.2 _⟩

/-- Claim C3 counterexample: with a fatally failing draft stage the
pipeline raises (models as `Except.error`) instead of returning a report,
so no report with a populated research text is returned at all. -/
theorem claim_C3_counterexample :
    (generate_technical_content mDraftFail ("topic")).1
        = Except.error (Err.other ("draft model down")) ∧
    ∀ r : Report,
      (generate_technical_content mDraftFail ("topic")).1 ≠ Except.ok r := by
  have hEval : (generate_technical_content mDraftFail ("topic")).1
      = Except.error (Err.other ("draft model down")) := rfl
  refine ⟨hEval, ?_⟩
  intro r h
  rw [hEval] at h
  exact Except.noConfusion h

/-- Claim C8 (amended): in every successful run the percentages delivered
to the progress sink are exactly [0, 25, 25, 50, 50, 75, 75, 100] (each
interior checkpoint is emitted twice: end of a stage and start of the
next), a monotonically non-decreasing sequence all of whose members lie in
the set underlying [0, 25, 50, 75, 100]. -/
theorem claim_C8_amended (m : Models) (topic : String) (r : Report)
    (h : (generate_technical_content m topic).1 = Except.ok r) :
    ((generate_technical_content m topic).2).map Prod.fst
        = [0, 25, 25, 50, 50, 75, 75, 100] ∧
    List.Chain' (· ≤ ·)
      (((generate_technical_content m topic).2).map Prod.fst) ∧
    ∀ x ∈ ((generate_technical_content m topic).2).map Prod.fst,
      x ∈ [0, 25, 50, 75, 100] := by
  have hm : ((generate_technical_content m topic).2).map Prod.fst
      = [0, 25, 25, 50, 50, 75, 75, 100] := by
    cases h1 : (retryRun m.research m.backup 2 1 0 0).result with
    | err e => simp [generate_technical_content, h1] at h
    | ok t1 =>
      cases h2 : (retryRun m.creative m.backup 2 1 0
          (retryRun m.research m.backup 2 1 0 0).backupCalls).result with
      | err e => simp [generate_technical_content, h1, h2] at h
      | ok t2 =>
        cases h3 : (retryRun m.code m.backup 2 1 0
            (retryRun m.creative m.backup 2 1 0
              (retryRun m.research m.backup 2 1 0 0).backupCalls).backupCalls).result with
        | err e => simp [generate_technical_content, h1, h2, h3] at h
        | ok t3 => simp [generate_technical_content, h1, h2, h3]
  refine ⟨hm, ?_, ?_⟩
  · rw [hm]
    simp [List.chain'_cons]
  · rw [hm]
    decide

/-- Claim C8 witness: the amended theorem at concrete all-succeeding
models. -/
theorem claim_C8_witness :
    ((generate_technical_content mAllOk ("witness topic")).2).map Prod.fst
        = [0, 25, 25, 50, 50, 75, 75, 100] :=
  (claim_C8_amended mAllOk ("witness topic")
    ⟨("R"), ("D using R"), ("print(1)"), ("print(1)"), ("python"),
     ("Code example generated for the given topic")⟩ rfl).1

/-- Claim C8 counterexample: a successful end-to-end run delivers eight
progress events, [0, 25, 25, 50, 50, 75, 75, 100], not the five-element
sequence [0, 25, 50, 75, 100] the claim states. -/
theorem claim_C8_counterexample :
    (generate_technical_content mAllOk ("topic")).1
      = Except.ok ⟨("R"), ("D using R"), ("print(1)"), ("print(1)"),
          ("python"), ("Code example generated for the given topic")⟩ ∧
    ((generate_technical_content mAllOk ("topic")).2).map Prod.fst
      = [0, 25, 25, 50, 50, 75, 75, 100] ∧
    ((generate_technical_content mAllOk ("topic")).2).map Prod.fst
      ≠ [0, 25, 50, 75, 100] := by
  refine ⟨rfl, by decide, by decide⟩

/-- Claim C9: every report returned by a successful run carries the
constant language field `python` and the constant explanation field,
independently of the topic and of every model output. -/
theorem claim_C9 (m : Models) (topic : String) (r : Report)
    (h : (generate_technical_content m topic).1 = Except.ok r) :
    r.code_language = ("python") ∧
    r.code_explanation = ("Code example generated for the given topic") := by
  cases h1 : (retryRun m.research m.backup 2 1 0 0).result with
  | err e => simp [generate_technical_content, h1] at h
  | ok t1 =>
    cases h2 : (retryRun m.creative m.backup 2 1 0
        (retryRun m.research m.backup 2 1 0 0).backupCalls).result with
    | err e => simp [generate_technical_content, h1, h2] at h
    | ok t2 =>
      cases h3 : (retryRun m.code m.backup 2 1 0
          (retryRun m.creative m.backup 2 1 0
            (retryRun m.research m.backup 2 1 0 0).backupCalls).backupCalls).result with
      | err e => simp [generate_technical_content, h1, h2, h3] at h
      | ok t3 =>
        simp [generate_technical_content, h1, h2, h3] at h
        rw [← h]
        exact ⟨rfl, rfl⟩

/-- Claim C9 witness: the theorem at concrete all-succeeding models and the
report their run returns. -/
theorem claim_C9_witness :
    (⟨("R"), ("D using R"), ("print(1)"), ("print(1)"), ("python"),
        ("Code example generated for the given topic")⟩
      : Report).code_language = ("python") ∧
    (⟨("R"), ("D using R"), ("print(1)"), ("print(1)"), ("python"),
        ("Code example generated for the given topic")⟩
      : Report).code_explanation
      = ("Code example generated for the given topic") :=
  claim_C9 mAllOk ("another topic") _ rfl
